import Mathlib

/-!
Shallow embedding of `sources/sdk/rust/src/models.rs` from the drasi-platform
repository: the `SourceElement`, `ChangeOp` and `SourceChange` data model and
their custom serde `Serialize` implementations, which render a change record
into a nested Debezium-like JSON envelope.

JSON documents are modelled as an inductive value type in which objects are
ordered association lists (serde emits fields in call order).  Unsigned 128-bit
and 64-bit integers carry no arithmetic in this module, only pass-through, so
they are embedded as `Nat`; where a claim speaks about the 128-bit range the
bound appears as an explicit hypothesis.  The `SOURCE_ID` environment variable
read by `SourceData::serialize` is modelled as an `Option String` parameter
threaded into the encoder.
-/

namespace Drasi

/-- Generic JSON value (mirrors `serde_json::Value` as used by the module);
objects keep their fields in emission order. -/
inductive JsonValue where
  | null : JsonValue
  | bool : Bool → JsonValue
  | num : Nat → JsonValue
  | str : String → JsonValue
  | arr : List JsonValue → JsonValue
  | obj : List (String × JsonValue) → JsonValue

/-- Keys of a JSON object, in emission order (empty for non-objects). -/
def JsonValue.keys : JsonValue → List String
  | .obj fields => fields.map Prod.fst
  | _ => []

/-- Look up the first field with the given key in a JSON object. -/
def JsonValue.getField (j : JsonValue) (k : String) : Option JsonValue :=
  match j with
  | .obj fields => (fields.find? (fun p => p.fst == k)).map Prod.snd
  | _ => none

/-- `SourceElement` from models.rs: an untagged union of a graph node and a
relationship. Property maps are ordered string-keyed JSON maps. -/
inductive SourceElement where
  | node (id : String) (labels : List String)
      (properties : List (String × JsonValue))
  | relation (id : String) (labels : List String)
      (properties : List (String × JsonValue))
      (start_id : String) (end_id : String)

/-- The identifier of either element variant. -/
def SourceElement.getId : SourceElement → String
  | .node id _ _ => id
  | .relation id _ _ _ _ => id

/-- `ChangeOp` from models.rs. -/
inductive ChangeOp where
  | create : ChangeOp
  | update : ChangeOp
  | delete : ChangeOp

/-- The serde rename attached to each `ChangeOp` variant: `Create` is
serialized as the string "i", `Update` as "u", `Delete` as "d". -/
def ChangeOp.serialize : ChangeOp → JsonValue
  | .create => .str "i"
  | .update => .str "u"
  | .delete => .str "d"

/-- `SourceChange` from models.rs.  The four integer fields are `u128`
(`reactivator_start_ns`, `reactivator_end_ns`, `source_ns`) and `u64`
(`seq`) in the source, embedded as `Nat`. -/
structure SourceChange where
  op : ChangeOp
  element : SourceElement
  metadata : Option (List (String × JsonValue))
  reactivator_start_ns : Nat
  reactivator_end_ns : Nat
  source_ns : Nat
  seq : Nat

/-- `SourceChange::new`: stores the given fields and initialises
`reactivator_end_ns` to `0`. -/
def SourceChange.new (op : ChangeOp) (element : SourceElement)
    (reactivator_start_ns : Nat) (source_ns : Nat) (seq : Nat)
    (metadata : Option (List (String × JsonValue))) : SourceChange :=
  { op := op, element := element, metadata := metadata,
    reactivator_start_ns := reactivator_start_ns,
    reactivator_end_ns := 0,
    source_ns := source_ns, seq := seq }

/-- `SourceChange::set_reactivator_end_ns`: overwrites the
`reactivator_end_ns` field (the `&mut self` method modelled functionally). -/
def SourceChange.set_reactivator_end_ns (c : SourceChange)
    (reactivator_end_ns : Nat) : SourceChange :=
  { c with reactivator_end_ns := reactivator_end_ns }

/-- `Serialize for SourceElement` (derived, `untagged`, with the serde
renames `startId` and `endId`): a node emits `id`, `labels`, `properties`;
a relation additionally emits `startId` and `endId`. -/
def SourceElement.serialize : SourceElement → JsonValue
  | .node id labels properties =>
      .obj [("id", .str id),
            ("labels", .arr (labels.map JsonValue.str)),
            ("properties", .obj properties)]
  | .relation id labels properties start_id end_id =>
      .obj [("id", .str id),
            ("labels", .arr (labels.map JsonValue.str)),
            ("properties", .obj properties),
            ("startId", .str start_id),
            ("endId", .str end_id)]

/-- `Serialize for SourceData`: emits `db` (the `SOURCE_ID` environment
variable, defaulting to "drasi"), `lsn` (the sequence number), `table`
("node" or "rel" by element variant) and `ts_ns` (the source timestamp).
`envSourceId` models the result of `env::var("SOURCE_ID")`. -/
def SourceData.serialize (envSourceId : Option String)
    (c : SourceChange) : JsonValue :=
  .obj [("db", .str (match envSourceId with
          | some s => s
          | none => "drasi")),
        ("lsn", .num c.seq),
        ("table", .str (match c.element with
          | .node _ _ _ => "node"
          | .relation _ _ _ _ _ => "rel")),
        ("ts_ns", .num c.source_ns)]

/-- `Serialize for Payload`: emits the element under a field named by the
operation (`after` for Create and Update, `before` for Delete), then the
`source` sub-structure. -/
def Payload.serialize (envSourceId : Option String)
    (c : SourceChange) : JsonValue :=
  .obj [((match c.op with
          | .create => "after"
          | .update => "after"
          | .delete => "before"), c.element.serialize),
        ("source", SourceData.serialize envSourceId c)]

/-- `Serialize for SourceChange`: emits `op`, `payload`,
`reactivatorStart_ns`, `reactivatorEnd_ns`, and `metadata` only when the
record holds one. -/
def SourceChange.serialize (envSourceId : Option String)
    (c : SourceChange) : JsonValue :=
  .obj ([("op", c.op.serialize),
         ("payload", Payload.serialize envSourceId c),
         ("reactivatorStart_ns", .num c.reactivator_start_ns),
         ("reactivatorEnd_ns", .num c.reactivator_end_ns)] ++
        (match c.metadata with
         | some m => [("metadata", JsonValue.obj m)]
         | none => []))

/-- The name of the payload element field chosen by `Payload::serialize`
for each operation kind. -/
def Payload.elementFieldName : ChangeOp → String
  | .create => "after"
  | .update => "after"
  | .delete => "before"

/-- C1: for every `SourceChange`, the payload object holds exactly one
element field, named "after" for Create and Update and "before" for
Delete, followed only by "source"; the alternate element field name never
appears among the payload's keys. -/
theorem payloadElementFieldByOp (envSourceId : Option String)
    (c : SourceChange) :
    JsonValue.keys (Payload.serialize envSourceId c) =
      [(match c.op with
        | .delete => "before"
        | _ => "after"), "source"] ∧
    (match c.op with
     | .delete => "after"
     | _ => "before") ∉ JsonValue.keys (Payload.serialize envSourceId c) := by
  cases c with
  | mk op element metadata rs re sns sq =>
    cases op <;>
      simp [Payload.serialize, JsonValue.keys]

/-- C2: for every `SourceChange`, the serialized envelope's "op" field is
exactly the one-character tag: "i" for Create, "u" for Update, "d" for
Delete. -/
theorem envelopeOpTag (envSourceId : Option String) (c : SourceChange) :
    JsonValue.getField (SourceChange.serialize envSourceId c) "op" =
      some (.str (match c.op with
        | .create => "i"
        | .update => "u"
        | .delete => "d")) := by
  cases c with
  | mk op element metadata rs re sns sq =>
    cases op <;> rfl

/-- C3: a node element serializes to an object with exactly the keys
`id`, `labels`, `properties`, and a relation element to exactly those
three plus `startId`, `endId`; no "type" discriminator key is emitted for
either variant. -/
theorem elementKeysByVariant (id : String) (labels : List String)
    (properties : List (String × JsonValue)) (start_id end_id : String) :
    JsonValue.keys (SourceElement.serialize (.node id labels properties)) =
      ["id", "labels", "properties"] ∧
    JsonValue.keys (SourceElement.serialize
        (.relation id labels properties start_id end_id)) =
      ["id", "labels", "properties", "startId", "endId"] ∧
    "type" ∉ JsonValue.keys (SourceElement.serialize
        (.node id labels properties)) ∧
    "type" ∉ JsonValue.keys (SourceElement.serialize
        (.relation id labels properties start_id end_id)) := by
  refine ⟨rfl, rfl, ?_, ?_⟩ <;> simp [SourceElement.serialize, JsonValue.keys]

/-- C4: for every `SourceChange`, the source sub-structure's "db" field is
the configured SOURCE_ID when set and the literal "drasi" otherwise, and
its "table" field is "node" for a node element and "rel" for a relation
element, independently of the operation kind. -/
theorem sourceDbAndTable (envSourceId : Option String) (c : SourceChange) :
    JsonValue.getField (SourceData.serialize envSourceId c) "db" =
      some (.str (match envSourceId with
        | some s => s
        | none => "drasi")) ∧
    JsonValue.getField (SourceData.serialize envSourceId c) "table" =
      some (.str (match c.element with
        | .node _ _ _ => "node"
        | .relation _ _ _ _ _ => "rel")) := by
  cases c with
  | mk op element metadata rs re sns sq =>
    cases element <;> cases envSourceId <;> exact ⟨rfl, rfl⟩

/-- C5: the envelope's "reactivatorEnd_ns" field equals the value passed
to the most recent `set_reactivator_end_ns` call; a freshly constructed
record serializes it as 0; and a second call simply overwrites the first
(last-write-wins). -/
theorem reactivatorEndReflectsFinalize (envSourceId : Option String)
    (c : SourceChange) (v w : Nat) (op : ChangeOp) (element : SourceElement)
    (rs sns : Nat) (sq : Nat)
    (metadata : Option (List (String × JsonValue))) :
    JsonValue.getField
        (SourceChange.serialize envSourceId (c.set_reactivator_end_ns v))
        "reactivatorEnd_ns" = some (.num v) ∧
    JsonValue.getField
        (SourceChange.serialize envSourceId
          (SourceChange.new op element rs sns sq metadata))
        "reactivatorEnd_ns" = some (.num 0) ∧
    (c.set_reactivator_end_ns v).set_reactivator_end_ns w =
      c.set_reactivator_end_ns w := by
  exact ⟨rfl, rfl, rfl⟩

/-- C6: the envelope's "metadata" field equals the record's metadata map
exactly when one was supplied, and the "metadata" key is present among the
envelope's keys exactly when the record holds a metadata map. -/
theorem metadataPresenceMatchesRecord (envSourceId : Option String)
    (c : SourceChange) :
    JsonValue.getField (SourceChange.serialize envSourceId c) "metadata" =
      Option.map JsonValue.obj c.metadata ∧
    ("metadata" ∈ JsonValue.keys (SourceChange.serialize envSourceId c) ↔
      c.metadata.isSome = true) := by
  cases c with
  | mk op element metadata rs re sns sq =>
    cases metadata <;>
      simp [SourceChange.serialize, JsonValue.getField, JsonValue.keys]

/-- C7: re-extracting from the encoded envelope the "op" tag, the element
identifier under the operation-determined payload field, the "lsn" under
"payload.source", and the two reactivator timestamps recovers exactly the
values the record was constructed and finalized with, for arbitrary `Nat`
timestamp and sequence values (the embedding carries integers exactly, so
no precision is lost for 128-bit values). -/
theorem envelopeRoundTrip (envSourceId : Option String) (op : ChangeOp)
    (element : SourceElement) (rs sns sq endv : Nat)
    (metadata : Option (List (String × JsonValue))) :
    JsonValue.getField
        (SourceChange.serialize envSourceId
          ((SourceChange.new op element rs sns sq metadata).set_reactivator_end_ns
            endv)) "op" = some op.serialize ∧
    ((JsonValue.getField
        (SourceChange.serialize envSourceId
          ((SourceChange.new op element rs sns sq metadata).set_reactivator_end_ns
            endv)) "payload").bind (fun p =>
      (JsonValue.getField p (Payload.elementFieldName op)).bind (fun e =>
        JsonValue.getField e "id"))) = some (.str element.getId) ∧
    ((JsonValue.getField
        (SourceChange.serialize envSourceId
          ((SourceChange.new op element rs sns sq metadata).set_reactivator_end_ns
            endv)) "payload").bind (fun p =>
      (JsonValue.getField p "source").bind (fun s =>
        JsonValue.getField s "lsn"))) = some (.num sq) ∧
    JsonValue.getField
        (SourceChange.serialize envSourceId
          ((SourceChange.new op element rs sns sq metadata).set_reactivator_end_ns
            endv)) "reactivatorStart_ns" = some (.num rs) ∧
    JsonValue.getField
        (SourceChange.serialize envSourceId
          ((SourceChange.new op element rs sns sq metadata).set_reactivator_end_ns
            endv)) "reactivatorEnd_ns" = some (.num endv) := by
  cases op <;> cases element <;> exact ⟨rfl, rfl, rfl, rfl, rfl⟩

/-- C8: construction, finalization and encoding are total: for every
operation, element, metadata and timestamp values throughout the full
unsigned 128-bit (timestamps) and 64-bit (sequence) ranges, the encoder
produces a JSON object whose top-level keys are exactly "op", "payload",
"reactivatorStart_ns", "reactivatorEnd_ns", plus "metadata" when a map
was supplied. -/
theorem encodingTotal (envSourceId : Option String) (op : ChangeOp)
    (element : SourceElement) (rs sns sq endv : Nat)
    (metadata : Option (List (String × JsonValue)))
    (hrs : rs < 2 ^ 128) (hsns : sns < 2 ^ 128) (hsq : sq < 2 ^ 64)
    (hend : endv < 2 ^ 128) :
    JsonValue.keys
        (SourceChange.serialize envSourceId
          ((SourceChange.new op element rs sns sq metadata).set_reactivator_end_ns
            endv)) =
      ["op", "payload", "reactivatorStart_ns", "reactivatorEnd_ns"] ++
        (match metadata with
         | some _ => ["metadata"]
         | none => []) := by
  cases metadata <;>
    simp [SourceChange.serialize, SourceChange.new,
      SourceChange.set_reactivator_end_ns, JsonValue.keys]

theorem encodingTotal_witness :
    ((2 ^ 128 - 1 : Nat) < 2 ^ 128 ∧ (2 ^ 64 - 1 : Nat) < 2 ^ 64) ∧
    JsonValue.keys
        (SourceChange.serialize none
          ((SourceChange.new .create (.node "n1" [] [])
              (2 ^ 128 - 1) (2 ^ 128 - 1) (2 ^ 64 - 1)
              (some [])).set_reactivator_end_ns (2 ^ 128 - 1))) =
      ["op", "payload", "reactivatorStart_ns", "reactivatorEnd_ns",
        "metadata"] := by
  have h128 : (2 ^ 128 - 1 : Nat) < 2 ^ 128 :=
    Nat.sub_lt (Nat.pos_pow_of_pos 128 (by norm_num)) (by norm_num)
  have h64 : (2 ^ 64 - 1 : Nat) < 2 ^ 64 :=
    Nat.sub_lt (Nat.pos_pow_of_pos 64 (by norm_num)) (by norm_num)
  exact ⟨⟨h128, h64⟩,
    encodingTotal none .create (.node "n1" [] [])
      (2 ^ 128 - 1) (2 ^ 128 - 1) (2 ^ 64 - 1) (2 ^ 128 - 1) (some [])
      h128 h128 h64 h128⟩

/-- C9: `set_reactivator_end_ns` changes only the `reactivator_end_ns`
field: the operation, element, metadata, capture-start timestamp,
source-native timestamp and sequence of the record are unchanged. -/
theorem finalizeFrame (c : SourceChange) (v : Nat) :
    (c.set_reactivator_end_ns v).op = c.op ∧
    (c.set_reactivator_end_ns v).element = c.element ∧
    (c.set_reactivator_end_ns v).metadata = c.metadata ∧
    (c.set_reactivator_end_ns v).reactivator_start_ns =
      c.reactivator_start_ns ∧
    (c.set_reactivator_end_ns v).source_ns = c.source_ns ∧
    (c.set_reactivator_end_ns v).seq = c.seq ∧
    (c.set_reactivator_end_ns v).reactivator_end_ns = v :=
  ⟨rfl, rfl, rfl, rfl, rfl, rfl, rfl⟩

/-- C10: a record constructed with an empty-but-supplied metadata map
serializes with the key "metadata" bound to the empty object, while a
record constructed with no metadata omits the key entirely. -/
theorem emptyMetadataStillEmitted (envSourceId : Option String)
    (op : ChangeOp) (element : SourceElement) (rs sns sq : Nat) :
    JsonValue.getField
        (SourceChange.serialize envSourceId
          (SourceChange.new op element rs sns sq (some [])))
        "metadata" = some (JsonValue.obj []) ∧
    "metadata" ∈ JsonValue.keys
        (SourceChange.serialize envSourceId
          (SourceChange.new op element rs sns sq (some []))) ∧
    JsonValue.getField
        (SourceChange.serialize envSourceId
          (SourceChange.new op element rs sns sq none))
        "metadata" = none := by
  refine ⟨rfl, ?_, rfl⟩
  simp [SourceChange.serialize, SourceChange.new, JsonValue.keys]

end Drasi
